import Mathlib

/-!
Shallow embedding of the tesla-video-backend core: the drizzle data model
(src/drizzle/schema.ts), the database layer (upsertUser, getUserByOpenId,
createTelegramSession, getTelegramSessionByToken, updateTelegramSession,
getUserVideos, getVideoById, deleteVideo, getPendingDownloads) and the tRPC
router handlers (auth.checkAuthStatus, auth.loginWithTelegram, videos.list,
videos.get, videos.delete from src/server/routers.ts).

The database is modelled as an in-memory `Store` of row lists; timestamps are
natural numbers (milliseconds, as produced by Date.now()); `Date` comparisons
become Nat comparisons. Throwing a TRPCError is modelled by `Except.error`;
a handler returns its result together with the store after the call, so that
mutation (or its absence) is observable. JavaScript truthiness on nullable
numbers (`!session.userId` is true for both null and 0) and on nullable
strings (`a || b` falls through on the empty string), and template-literal
rendering of null (`"telegram_" + null` is "telegram_null"), are reproduced
exactly by dedicated helpers.
-/

namespace TeslaVideo

/-- Role enum of the users table. -/
inductive Role
  | user
  | admin
deriving DecidableEq, Repr

/-- Status enum of the videos table. -/
inductive VideoStatus
  | downloading
  | ready
  | failed
deriving DecidableEq, Repr

/-- Status enum of the download_queue table. -/
inductive DownloadStatus
  | pending
  | processing
  | completed
  | failed
deriving DecidableEq, Repr

/-- A row of the users table (schema.ts). -/
structure User where
  id : Nat
  openId : String
  name : Option String
  email : Option String
  loginMethod : Option String
  role : Role
  createdAt : Nat
  updatedAt : Nat
  lastSignedIn : Nat
deriving DecidableEq, Repr

/-- A row of the telegram_sessions table (schema.ts). -/
structure TelegramSession where
  id : Nat
  authToken : String
  telegramUserId : Option Nat
  telegramUsername : Option String
  userId : Option Nat
  verified : Bool
  createdAt : Nat
  expiresAt : Nat
deriving DecidableEq, Repr

/-- A row of the videos table (schema.ts). -/
structure Video where
  id : Nat
  userId : Nat
  youtubeId : Option String
  title : String
  description : Option String
  thumbnailUrl : Option String
  duration : Option Nat
  fileKey : String
  fileUrl : String
  fileSize : Option Nat
  mimeType : Option String
  status : VideoStatus
  createdAt : Nat
  updatedAt : Nat
deriving DecidableEq, Repr

/-- A row of the download_queue table (schema.ts). -/
structure DownloadQueueEntry where
  id : Nat
  userId : Nat
  youtubeUrl : String
  youtubeId : Option String
  status : DownloadStatus
  errorMessage : Option String
  videoId : Option Nat
  createdAt : Nat
  updatedAt : Nat
deriving DecidableEq, Repr

/-- The whole backing store: one list of rows per table, plus autoincrement
counters for the tables whose generated ids the embedded code observes. -/
structure Store where
  users : List User
  sessions : List TelegramSession
  videos : List Video
  queue : List DownloadQueueEntry
  nextUserId : Nat
  nextSessionId : Nat
deriving DecidableEq, Repr

/-- The store with no rows; autoincrement counters start at 1 as in MySQL. -/
def emptyStore : Store :=
  { users := [], sessions := [], videos := [], queue := []
    nextUserId := 1, nextSessionId := 1 }

/-- JavaScript truthiness of a nullable number: null and 0 are falsy.
Mirrors the `!session.userId` test in loginWithTelegram. -/
def jsTruthyNat : Option Nat → Bool
  | none => false
  | some n => n != 0

/-- JavaScript `a || b` on a nullable string: null and the empty string fall
through to the right operand. -/
def jsOrStr : Option String → String → String
  | some a, b => if a = "" then b else a
  | none, b => b

/-- Template-literal rendering of a nullable number: null prints as "null". -/
def numOrNullStr : Option Nat → String
  | some n => toString n
  | none => "null"

/-- The argument of upsertUser (InsertUser in schema.ts), as a tri-stated
patch: for the nullable text columns `none` is an omitted field, `some none`
an explicit null, `some (some v)` a value; role and lastSignedIn are not
nullable in InsertUser, so a single Option suffices. -/
structure InsertUser where
  openId : String
  name : Option (Option String) := none
  email : Option (Option String) := none
  loginMethod : Option (Option String) := none
  role : Option Role := none
  lastSignedIn : Option Nat := none
deriving DecidableEq, Repr

/-- The role entry that upsertUser puts into both `values` and `updateSet`:
the supplied role if any, else admin forced for the configured owner openId,
else absent. -/
def userRoleToSet (ownerOpenId : String) (u : InsertUser) : Option Role :=
  match u.role with
  | some r => some r
  | none => if u.openId == ownerOpenId then some Role.admin else none

/-- Whether the caller supplied no field besides the identity. -/
def noFieldSupplied (u : InsertUser) : Bool :=
  u.name.isNone && u.email.isNone && u.loginMethod.isNone &&
    u.role.isNone && u.lastSignedIn.isNone

/-- Whether the `updateSet` object built by upsertUser is empty: no field was
supplied and the owner rule did not add a role entry. -/
def userUpdateSetEmpty (ownerOpenId : String) (u : InsertUser) : Bool :=
  noFieldSupplied u && !(u.openId == ownerOpenId)

/-- The ON DUPLICATE KEY UPDATE branch of upsertUser applied to an existing
row: supplied fields overwrite (an explicit null clears), omitted fields are
kept, role follows userRoleToSet, and when the updateSet would be empty the
code instead refreshes lastSignedIn to now; updatedAt is refreshed by the
column-level ON UPDATE CURRENT_TIMESTAMP. -/
def applyUserUpdateSet (ownerOpenId : String) (now : Nat) (u : InsertUser)
    (r : User) : User :=
  { r with
    name := u.name.getD r.name
    email := u.email.getD r.email
    loginMethod := u.loginMethod.getD r.loginMethod
    role := (userRoleToSet ownerOpenId u).getD r.role
    lastSignedIn :=
      if userUpdateSetEmpty ownerOpenId u then now
      else u.lastSignedIn.getD r.lastSignedIn
    updatedAt := now }

/-- The insert branch of upsertUser: the `values` object completed by the
column defaults of the users table; upsertUser itself fills lastSignedIn with
the current time when it was not supplied. -/
def insertUserRow (ownerOpenId : String) (now : Nat) (s : Store)
    (u : InsertUser) : User :=
  { id := s.nextUserId
    openId := u.openId
    name := u.name.join
    email := u.email.join
    loginMethod := u.loginMethod.join
    role := (userRoleToSet ownerOpenId u).getD Role.user
    createdAt := now
    updatedAt := now
    lastSignedIn := u.lastSignedIn.getD now }

/-- upsertUser from the db layer: throws when openId is empty (JS falsiness
of the string), otherwise INSERT ... ON DUPLICATE KEY UPDATE keyed on the
unique openId column. -/
def upsertUser (ownerOpenId : String) (now : Nat) (s : Store)
    (u : InsertUser) : Except String Store :=
  if u.openId = "" then
    Except.error "User openId is required for upsert"
  else if s.users.any (fun r => r.openId == u.openId) then
    Except.ok { s with
      users := s.users.map (fun r =>
        if r.openId == u.openId then applyUserUpdateSet ownerOpenId now u r
        else r) }
  else
    Except.ok { s with
      users := s.users ++ [insertUserRow ownerOpenId now s u]
      nextUserId := s.nextUserId + 1 }

/-- getUserByOpenId from the db layer: first row with that openId, if any. -/
def getUserByOpenId (s : Store) (openId : String) : Option User :=
  s.users.find? (fun r => r.openId == openId)

/-- The argument of createTelegramSession (InsertTelegramSession): authToken
and expiresAt are required, the rest optional with column defaults. -/
structure InsertTelegramSession where
  authToken : String
  telegramUserId : Option Nat := none
  telegramUsername : Option String := none
  userId : Option Nat := none
  verified : Option Bool := none
  expiresAt : Nat
deriving DecidableEq, Repr

/-- createTelegramSession from the db layer: plain INSERT with column
defaults (verified defaults to false, createdAt to now, id autoincrement). -/
def createTelegramSession (s : Store) (now : Nat)
    (ins : InsertTelegramSession) : Store :=
  { s with
    sessions := s.sessions ++ [{
      id := s.nextSessionId
      authToken := ins.authToken
      telegramUserId := ins.telegramUserId
      telegramUsername := ins.telegramUsername
      userId := ins.userId
      verified := ins.verified.getD false
      createdAt := now
      expiresAt := ins.expiresAt }]
    nextSessionId := s.nextSessionId + 1 }

/-- getTelegramSessionByToken from the db layer: first row with that
authToken, if any (the column is unique). -/
def getTelegramSessionByToken (s : Store) (authToken : String) :
    Option TelegramSession :=
  s.sessions.find? (fun r => r.authToken == authToken)

/-- Partial session mutation (Partial of InsertTelegramSession): each field
independently absent, or present (with explicit null as `some none` for the
nullable columns). -/
structure TelegramSessionPatch where
  authToken : Option String := none
  telegramUserId : Option (Option Nat) := none
  telegramUsername : Option (Option String) := none
  userId : Option (Option Nat) := none
  verified : Option Bool := none
  expiresAt : Option Nat := none
deriving DecidableEq, Repr

/-- The SET clause of updateTelegramSession applied to one row. -/
def applySessionPatch (p : TelegramSessionPatch) (r : TelegramSession) :
    TelegramSession :=
  { r with
    authToken := p.authToken.getD r.authToken
    telegramUserId := p.telegramUserId.getD r.telegramUserId
    telegramUsername := p.telegramUsername.getD r.telegramUsername
    userId := p.userId.getD r.userId
    verified := p.verified.getD r.verified
    expiresAt := p.expiresAt.getD r.expiresAt }

/-- updateTelegramSession from the db layer: UPDATE ... WHERE authToken = ?;
rows that do not match are untouched, and a token matching no row makes the
statement affect zero rows without raising any error. -/
def updateTelegramSession (s : Store) (authToken : String)
    (p : TelegramSessionPatch) : Store :=
  { s with
    sessions := s.sessions.map (fun r =>
      if r.authToken == authToken then applySessionPatch p r else r) }

/-- getUserVideos from the db layer: SELECT ... WHERE userId = ? AND
status = ready ORDER BY createdAt DESC. -/
def getUserVideos (s : Store) (userId : Nat) : List Video :=
  (s.videos.filter (fun v =>
      v.userId == userId && v.status == VideoStatus.ready)).mergeSort
    (fun a b => decide (b.createdAt ≤ a.createdAt))

/-- getVideoById from the db layer: SELECT ... WHERE id = ? AND userId = ?
LIMIT 1 — the ownership check is part of the query itself. -/
def getVideoById (s : Store) (videoId userId : Nat) : Option Video :=
  s.videos.find? (fun v => v.id == videoId && v.userId == userId)

/-- deleteVideo from the db layer: DELETE ... WHERE id = ? AND userId = ?. -/
def deleteVideo (s : Store) (videoId userId : Nat) : Store :=
  { s with
    videos := s.videos.filter (fun v =>
      !(v.id == videoId && v.userId == userId)) }

/-- getPendingDownloads from the db layer: SELECT ... WHERE status = pending
ORDER BY createdAt (ascending). -/
def getPendingDownloads (s : Store) : List DownloadQueueEntry :=
  (s.queue.filter (fun e => e.status == DownloadStatus.pending)).mergeSort
    (fun a b => decide (a.createdAt ≤ b.createdAt))

/-- The two TRPCError codes the embedded handlers throw. -/
inductive TrpcCode
  | NOT_FOUND
  | UNAUTHORIZED
deriving DecidableEq, Repr

/-- A thrown TRPCError: machine-readable code plus message. -/
structure TrpcError where
  code : TrpcCode
  message : String
deriving DecidableEq, Repr

/-- The code of an error outcome, if the outcome is an error. -/
def errCode {α : Type} : Except TrpcError α → Option TrpcCode
  | Except.error e => some e.code
  | Except.ok _ => none

/-- Result of auth.checkAuthStatus. -/
structure AuthStatusResult where
  verified : Bool
  userId : Option Nat
  telegramUsername : Option String
deriving DecidableEq, Repr

/-- auth.checkAuthStatus from routers.ts: NOT_FOUND when no session carries
the token, UNAUTHORIZED when the session expiry lies strictly before now,
otherwise the verified flag, linked user id and Telegram username of the
session. The handler performs no store write, so the returned store is the
input store on every path. -/
def checkAuthStatus (s : Store) (now : Nat) (authToken : String) :
    Except TrpcError AuthStatusResult × Store :=
  match getTelegramSessionByToken s authToken with
  | none =>
    (Except.error { code := TrpcCode.NOT_FOUND
                    message := "Auth token not found or expired" }, s)
  | some sess =>
    if sess.expiresAt < now then
      (Except.error { code := TrpcCode.UNAUTHORIZED
                      message := "Auth token expired" }, s)
    else
      (Except.ok { verified := sess.verified
                   userId := sess.userId
                   telegramUsername := sess.telegramUsername }, s)

/-- The session credential cookie set by a successful login: the sdk mints
the JWT from the openId of the resolved user and the display name computed
with JS-falsy fallbacks; both inputs of the mint are recorded. -/
structure SessionCookie where
  openId : String
  name : String
deriving DecidableEq, Repr

/-- Result of a successful auth.loginWithTelegram. -/
structure LoginResult where
  success : Bool
  userId : Nat
  cookie : SessionCookie
deriving DecidableEq, Repr

/-- auth.loginWithTelegram from routers.ts: UNAUTHORIZED when the token is
unknown, the session unverified or its userId JS-falsy; UNAUTHORIZED when
expired; then the user is looked up by the openId string built from the
TELEGRAM user id of the session (not its linked userId column), NOT_FOUND
when absent; on success a cookie is set with a credential minted for that
user while the returned userId is the linked userId of the session. No store
write happens on any path (the session is not invalidated). -/
def loginWithTelegram (s : Store) (now : Nat) (authToken : String) :
    Except TrpcError LoginResult × Store :=
  match getTelegramSessionByToken s authToken with
  | none =>
    (Except.error { code := TrpcCode.UNAUTHORIZED
                    message := "Invalid or unverified auth token" }, s)
  | some sess =>
    if !sess.verified || !jsTruthyNat sess.userId then
      (Except.error { code := TrpcCode.UNAUTHORIZED
                      message := "Invalid or unverified auth token" }, s)
    else if sess.expiresAt < now then
      (Except.error { code := TrpcCode.UNAUTHORIZED
                      message := "Auth token expired" }, s)
    else
      match getUserByOpenId s ("telegram_" ++ numOrNullStr sess.telegramUserId) with
      | none =>
        (Except.error { code := TrpcCode.NOT_FOUND
                        message := "User not found in database" }, s)
      | some user =>
        (Except.ok { success := true
                     userId := sess.userId.getD 0
                     cookie := { openId := user.openId
                                 name := jsOrStr user.name
                                   (jsOrStr sess.telegramUsername "User") } }, s)

/-- auth.generateAuthToken from routers.ts: a fresh (externally supplied
random) token, expiry ten minutes from now in milliseconds, verified false. -/
def generateAuthToken (s : Store) (now : Nat) (token : String) :
    Store × String :=
  (createTelegramSession s now
    { authToken := token
      expiresAt := now + 10 * 60 * 1000
      verified := some false }, token)

/-- videos.list from routers.ts: getUserVideos on the authenticated caller. -/
def videosList (s : Store) (callerId : Nat) : List Video :=
  getUserVideos s callerId

/-- videos.get from routers.ts: ownership-scoped fetch, NOT_FOUND when the
query (id AND owner) matches nothing; no store write. -/
def videosGet (s : Store) (callerId videoId : Nat) :
    Except TrpcError Video × Store :=
  match getVideoById s videoId callerId with
  | none =>
    (Except.error { code := TrpcCode.NOT_FOUND
                    message := "Video not found" }, s)
  | some v => (Except.ok v, s)

/-- videos.delete from routers.ts: same ownership-scoped fetch first,
NOT_FOUND (and no write) when it matches nothing, otherwise the
ownership-scoped delete runs and success is returned. -/
def videosDelete (s : Store) (callerId videoId : Nat) :
    Except TrpcError Bool × Store :=
  match getVideoById s videoId callerId with
  | none =>
    (Except.error { code := TrpcCode.NOT_FOUND
                    message := "Video not found" }, s)
  | some _ => (Except.ok true, deleteVideo s videoId callerId)

/-- Schema-level well-formedness of a stored state: user ids are positive
(MySQL autoincrement starts at 1) and the foreign key from
telegram_sessions.userId into users.id holds. -/
def StoreWF (s : Store) : Bool :=
  s.users.all (fun u => decide (1 ≤ u.id)) &&
    s.sessions.all (fun t => t.userId.all (fun uid =>
      s.users.any (fun u => u.id == uid)))

/-! Concrete fixtures used by witnesses and counterexamples. -/

/-- Fixture user: the record the telegram openId lookup resolves. -/
def annUser : User :=
  { id := 3, openId := "telegram_555", name := some "Ann", email := none
    loginMethod := some "telegram", role := Role.user
    createdAt := 0, updatedAt := 0, lastSignedIn := 0 }

/-- Fixture session: verified, linked to annUser, expires at 100. -/
def verifiedSess : TelegramSession :=
  { id := 1, authToken := "tok", telegramUserId := some 555
    telegramUsername := some "ann", userId := some 3, verified := true
    createdAt := 0, expiresAt := 100 }

/-- Fixture session: still pending (never claimed by the bot). -/
def pendingSess : TelegramSession :=
  { id := 2, authToken := "pend", telegramUserId := none
    telegramUsername := some "bob", userId := none, verified := false
    createdAt := 0, expiresAt := 100 }

/-- Fixture store for the auth-flow claims. -/
def demoStore : Store :=
  { users := [annUser], sessions := [verifiedSess, pendingSess]
    videos := [], queue := [], nextUserId := 4, nextSessionId := 3 }

/-- Fixture user for the identity-mismatch claim: holds the telegram-keyed
openId but has database id 3. -/
def tinaUser : User :=
  { id := 3, openId := "telegram_555", name := some "Tina", email := none
    loginMethod := some "telegram", role := Role.user
    createdAt := 0, updatedAt := 0, lastSignedIn := 0 }

/-- Fixture session whose linked userId (7) is not the id of the user that
the telegram openId lookup resolves (3). -/
def mismatchSess : TelegramSession :=
  { id := 1, authToken := "tk", telegramUserId := some 555
    telegramUsername := some "tina", userId := some 7, verified := true
    createdAt := 0, expiresAt := 100 }

/-- Fixture store exhibiting the mismatch. -/
def mismatchStore : Store :=
  { users := [tinaUser], sessions := [mismatchSess]
    videos := [], queue := [], nextUserId := 4, nextSessionId := 2 }

/-- The login result produced on the mismatch fixture. -/
def mismatchRes : LoginResult :=
  { success := true, userId := 7
    cookie := { openId := "telegram_555", name := "Tina" } }

/-- Fixture video: ready, owned by user 1, oldest. -/
def vidReady : Video :=
  { id := 1, userId := 1, youtubeId := some "abc", title := "A"
    description := none, thumbnailUrl := none, duration := none
    fileKey := "k1", fileUrl := "u1", fileSize := none, mimeType := none
    status := VideoStatus.ready, createdAt := 10, updatedAt := 10 }

/-- Fixture video: still downloading, owned by user 1. -/
def vidDownloading : Video :=
  { id := 3, userId := 1, youtubeId := none, title := "C"
    description := none, thumbnailUrl := none, duration := none
    fileKey := "k3", fileUrl := "u3", fileSize := none, mimeType := none
    status := VideoStatus.downloading, createdAt := 30, updatedAt := 30 }

/-- Fixture video: ready, owned by user 1, newest. -/
def vidReady2 : Video :=
  { id := 2, userId := 1, youtubeId := some "def", title := "B"
    description := none, thumbnailUrl := none, duration := none
    fileKey := "k2", fileUrl := "u2", fileSize := none, mimeType := none
    status := VideoStatus.ready, createdAt := 20, updatedAt := 20 }

/-- Fixture video: ready but owned by user 2. -/
def vidOther : Video :=
  { id := 4, userId := 2, youtubeId := none, title := "D"
    description := none, thumbnailUrl := none, duration := none
    fileKey := "k4", fileUrl := "u4", fileSize := none, mimeType := none
    status := VideoStatus.ready, createdAt := 40, updatedAt := 40 }

/-- Fixture store for the video-catalog claims. -/
def videoStore : Store :=
  { users := [], sessions := []
    videos := [vidReady, vidDownloading, vidReady2, vidOther]
    queue := [], nextUserId := 1, nextSessionId := 1 }

/-- Fixture queue entry: pending, created at 30. -/
def qePendingLate : DownloadQueueEntry :=
  { id := 1, userId := 1, youtubeUrl := "https://youtube.com/watch?v=a"
    youtubeId := some "a", status := DownloadStatus.pending
    errorMessage := none, videoId := none, createdAt := 30, updatedAt := 30 }

/-- Fixture queue entry: pending, created at 10. -/
def qePendingEarly : DownloadQueueEntry :=
  { id := 2, userId := 2, youtubeUrl := "https://youtube.com/watch?v=b"
    youtubeId := some "b", status := DownloadStatus.pending
    errorMessage := none, videoId := none, createdAt := 10, updatedAt := 10 }

/-- Fixture queue entry: already claimed by the worker. -/
def qeProcessing : DownloadQueueEntry :=
  { id := 3, userId := 1, youtubeUrl := "https://youtube.com/watch?v=c"
    youtubeId := some "c", status := DownloadStatus.processing
    errorMessage := none, videoId := none, createdAt := 5, updatedAt := 6 }

/-- Fixture store for the download-queue claims. -/
def queueStore : Store :=
  { users := [], sessions := [], videos := []
    queue := [qePendingLate, qeProcessing, qePendingEarly]
    nextUserId := 1, nextSessionId := 1 }

/-- Transition system of claim C4 taken literally: stores reachable from the
empty store through session creation as generateAuthToken performs it
(verified false, no linkage) and through the raw partial-update primitive
with an arbitrary patch — the exact operation surface the claim names. -/
inductive SessionReach : Store → Prop
  | init : SessionReach emptyStore
  | generate (s : Store) (now : Nat) (tok : String) :
      SessionReach s → SessionReach (generateAuthToken s now tok).1
  | update (s : Store) (tok : String) (p : TelegramSessionPatch) :
      SessionReach s → SessionReach (updateTelegramSession s tok p)

/-- Modelled from the spec: the single mutation the external verifying bot
(outside this repository) performs when it claims a session — telegram user
id, username and linked user id set together with verified=true. -/
def verifierPatch (tuid : Nat) (tuname : Option String) (uid : Nat) :
    TelegramSessionPatch :=
  { telegramUserId := some (some tuid)
    telegramUsername := some tuname
    userId := some (some uid)
    verified := some true }

/-- Stores reachable when every update has the verifier shape. -/
inductive SessionReachVerifier : Store → Prop
  | init : SessionReachVerifier emptyStore
  | generate (s : Store) (now : Nat) (tok : String) :
      SessionReachVerifier s →
      SessionReachVerifier (generateAuthToken s now tok).1
  | verify (s : Store) (tok : String) (tuid : Nat) (tuname : Option String)
      (uid : Nat) :
      SessionReachVerifier s →
      SessionReachVerifier (updateTelegramSession s tok
        (verifierPatch tuid tuname uid))

/-- The data-model invariant of the spec for telegram sessions. -/
def sessionLinkInvariant (s : Store) : Prop :=
  ∀ r ∈ s.sessions, r.verified = true →
    r.telegramUserId ≠ none ∧ r.userId ≠ none

/-- Store reached by creating a session and then updating it with a patch
that sets only verified (no linkage) — reachable per claim C4, yet breaking
the invariant. -/
def c4Store : Store :=
  updateTelegramSession (generateAuthToken emptyStore 0 "t").1 "t"
    { verified := some true }

/-- The single session row of c4Store. -/
def c4Row : TelegramSession :=
  { id := 1, authToken := "t", telegramUserId := none
    telegramUsername := none, userId := none, verified := true
    createdAt := 0, expiresAt := 600000 }

/-- Store reached with a verifier-shaped update only. -/
def c4GoodStore : Store :=
  updateTelegramSession (generateAuthToken emptyStore 0 "t").1 "t"
    (verifierPatch 555 (some "ann") 7)

/-- Prior user row for the upsert counterexample: carries the configured
owner identity with role user. -/
def c5Prior : User :=
  { id := 1, openId := "owner", name := some "Olga", email := none
    loginMethod := some "telegram", role := Role.user
    createdAt := 0, updatedAt := 0, lastSignedIn := 5 }

/-- Prior store for the upsert counterexample. -/
def c5Store : Store :=
  { users := [c5Prior], sessions := [], videos := [], queue := []
    nextUserId := 2, nextSessionId := 1 }

/-- Upsert argument supplying nothing but the identity. -/
def c5Ins : InsertUser := { openId := "owner" }

/-- The row after the counterexample upsert: role silently forced to admin,
lastSignedIn untouched. -/
def c5After : User :=
  { id := 1, openId := "owner", name := some "Olga", email := none
    loginMethod := some "telegram", role := Role.admin
    createdAt := 0, updatedAt := 100, lastSignedIn := 5 }

/-- The store after the counterexample upsert. -/
def c5Store2 : Store :=
  { users := [c5After], sessions := [], videos := [], queue := []
    nextUserId := 2, nextSessionId := 1 }

/-- Prior user row for the upsert witness (identity distinct from the
configured owner identity). -/
def w5Prior : User :=
  { id := 1, openId := "alice", name := some "Alice", email := some "a@x"
    loginMethod := some "telegram", role := Role.user
    createdAt := 0, updatedAt := 0, lastSignedIn := 5 }

/-- Prior store for the upsert witness. -/
def w5Store : Store :=
  { users := [w5Prior], sessions := [], videos := [], queue := []
    nextUserId := 2, nextSessionId := 1 }

/-- Upsert argument for the witness: clears name with an explicit null,
overwrites email, omits everything else. -/
def w5Ins : InsertUser :=
  { openId := "alice", name := some none, email := some (some "b@y") }

/-- Patch used in the update-primitive claims: the verified flag and both
linkage columns. -/
def c9Patch : TelegramSessionPatch :=
  { telegramUserId := some (some 555)
    telegramUsername := some (some "ann")
    userId := some (some 3)
    verified := some true }

end TeslaVideo

namespace TeslaVideo

/-- Claim C2: for every auth token, checkAuthStatus fails with NOT_FOUND when
no session with that token exists; fails with UNAUTHORIZED when the session
exists but its expiry timestamp has passed; and on an existing, unexpired,
still-pending session returns verified false together with the linked user id
and Telegram username fields of the session. -/
theorem checkAuthStatus_spec (s : Store) (now : Nat) (tok : String) :
    (getTelegramSessionByToken s tok = none →
      errCode (checkAuthStatus s now tok).1 = some TrpcCode.NOT_FOUND) ∧
    (∀ sess, getTelegramSessionByToken s tok = some sess →
      sess.expiresAt < now →
      errCode (checkAuthStatus s now tok).1 = some TrpcCode.UNAUTHORIZED) ∧
    (∀ sess, getTelegramSessionByToken s tok = some sess →
      ¬ sess.expiresAt < now → sess.verified = false →
      (checkAuthStatus s now tok).1 =
        Except.ok { verified := false, userId := sess.userId
                    telegramUsername := sess.telegramUsername }) := by
  refine ⟨?_, ?_, ?_⟩
  · intro h
    simp [checkAuthStatus, h, errCode]
  · intro sess h hexp
    simp [checkAuthStatus, h, hexp, errCode]
  · intro sess h hexp hver
    simp [checkAuthStatus, h, hexp, hver, errCode]

/-- Witness for C2: on the fixture store the pending, unexpired token reports
verified false with the stored (null) user id and username. -/
theorem checkAuthStatus_spec_witness :
    (checkAuthStatus demoStore 50 "pend").1 =
      Except.ok { verified := false, userId := none
                  telegramUsername := some "bob" } :=
  (checkAuthStatus_spec demoStore 50 "pend").2.2 pendingSess (by decide)
    (by decide) rfl

/-- Counterexample for C3: the status poll is claimed to produce no error
other than token-not-found, but on an expired token (stored expiry 100, call
at 200) the code throws UNAUTHORIZED, a code distinct from NOT_FOUND. -/
theorem checkAuthStatus_expired_error_counterexample :
    errCode (checkAuthStatus demoStore 200 "tok").1 =
      some TrpcCode.UNAUTHORIZED ∧
    TrpcCode.UNAUTHORIZED ≠ TrpcCode.NOT_FOUND := by decide

/-- Claim C3 as amended: the status poll is a pure read (the store after the
call is the store before it, for every input), its only errors are NOT_FOUND
on an unknown token and UNAUTHORIZED on an expired one, and on every
unexpired session it finds it returns the verified flag, the linked user id
and the external username. -/
theorem checkAuthStatus_pure_read (s : Store) (now : Nat) (tok : String) :
    (checkAuthStatus s now tok).2 = s ∧
    (∀ e, (checkAuthStatus s now tok).1 = Except.error e →
      (e.code = TrpcCode.NOT_FOUND ∧ getTelegramSessionByToken s tok = none) ∨
      (e.code = TrpcCode.UNAUTHORIZED ∧
        ∃ sess, getTelegramSessionByToken s tok = some sess ∧
          sess.expiresAt < now)) ∧
    (∀ sess, getTelegramSessionByToken s tok = some sess →
      ¬ sess.expiresAt < now →
      (checkAuthStatus s now tok).1 =
        Except.ok { verified := sess.verified, userId := sess.userId
                    telegramUsername := sess.telegramUsername }) := by
  refine ⟨?_, ?_, ?_⟩
  · cases h : getTelegramSessionByToken s tok with
    | none => simp [checkAuthStatus, h]
    | some sess =>
      by_cases hexp : sess.expiresAt < now
      · simp [checkAuthStatus, h, hexp]
      · simp [checkAuthStatus, h, hexp]
  · intro e he
    cases h : getTelegramSessionByToken s tok with
    | none =>
      simp [checkAuthStatus, h] at he
      left
      exact ⟨by rw [← he], rfl⟩
    | some sess =>
      by_cases hexp : sess.expiresAt < now
      · simp [checkAuthStatus, h, hexp] at he
        right
        exact ⟨by rw [← he], sess, rfl, hexp⟩
      · simp [checkAuthStatus, h, hexp] at he
  · intro sess h hexp
    simp [checkAuthStatus, h, hexp]

/-- Witness for the amended C3: a concrete call on the fixture store returns
the stored fields and leaves the store untouched. -/
theorem checkAuthStatus_pure_read_witness :
    (checkAuthStatus demoStore 50 "tok").2 = demoStore ∧
    (checkAuthStatus demoStore 50 "tok").1 =
      Except.ok { verified := true, userId := some 3
                  telegramUsername := some "ann" } :=
  ⟨(checkAuthStatus_pure_read demoStore 50 "tok").1,
   (checkAuthStatus_pure_read demoStore 50 "tok").2.2 verifiedSess (by decide)
     (by decide)⟩

/-- Claim C6: videos.list returns exactly the videos owned by the caller
whose status is ready (a permutation of the ready-and-owned filter of the
table), ordered newest-first by creation time; every listed video is owned by
the caller and ready, and every ready video of the caller is listed — so no
downloading or failed video ever appears, however many the caller owns. -/
theorem videosList_spec (s : Store) (uid : Nat) :
    (videosList s uid).Perm (s.videos.filter (fun v =>
        v.userId == uid && v.status == VideoStatus.ready)) ∧
    (videosList s uid).Pairwise (fun a b => b.createdAt ≤ a.createdAt) ∧
    (∀ v ∈ videosList s uid, v.userId = uid ∧ v.status = VideoStatus.ready) ∧
    (∀ v ∈ s.videos, v.userId = uid → v.status = VideoStatus.ready →
      v ∈ videosList s uid) := by
  refine ⟨List.mergeSort_perm _ _, ?_, ?_, ?_⟩
  · have h := @List.sorted_mergeSort Video
      (fun a b => decide (b.createdAt ≤ a.createdAt))
      (fun a b c hab hbc => by simp only [decide_eq_true_eq] at *; omega)
      (fun a b => by simp only [Bool.or_eq_true, decide_eq_true_eq]; omega)
      (s.videos.filter (fun v =>
        v.userId == uid && v.status == VideoStatus.ready))
    exact h.imp (fun hab => by simpa using hab)
  · intro v hv
    have hv2 : v ∈ s.videos.filter (fun v =>
        v.userId == uid && v.status == VideoStatus.ready) := by
      simpa [videosList, getUserVideos] using hv
    simp only [List.mem_filter, Bool.and_eq_true, beq_iff_eq] at hv2
    exact hv2.2
  · intro v hv h1 h2
    simp only [videosList, getUserVideos, List.mem_mergeSort, List.mem_filter,
      Bool.and_eq_true, beq_iff_eq]
    exact ⟨hv, h1, h2⟩

/-- Witness for C6: on the fixture store the list for caller 1 consists of
exactly the two ready videos of user 1 (the downloading one and the video of
user 2 are excluded), and the newest ready video is a member. -/
theorem videosList_spec_witness :
    (videosList videoStore 1).Perm [vidReady, vidReady2] ∧
    vidReady2 ∈ videosList videoStore 1 :=
  ⟨(videosList_spec videoStore 1).1,
   (videosList_spec videoStore 1).2.2.2 vidReady2 (by decide) rfl rfl⟩

/-- Claim C7: videos.get and videos.delete on a video id that the caller does
not own — whether the id belongs to another user or to no video at all —
produce exactly the same observable outcome: the NOT_FOUND error of the
handlers and an unchanged store, so the two situations are indistinguishable
through these operations. -/
theorem videos_other_owner_hidden (s : Store) (uid vid : Nat)
    (h : ∀ v ∈ s.videos, v.id = vid → v.userId ≠ uid) :
    videosGet s uid vid =
      (Except.error { code := TrpcCode.NOT_FOUND
                      message := "Video not found" }, s) ∧
    videosDelete s uid vid =
      (Except.error { code := TrpcCode.NOT_FOUND
                      message := "Video not found" }, s) := by
  have hfind : getVideoById s vid uid = none := by
    apply List.find?_eq_none.mpr
    intro v hv
    simp only [Bool.and_eq_true, beq_iff_eq, not_and]
    intro h1 h2
    exact h v hv h1 h2
  exact ⟨by simp [videosGet, hfind], by simp [videosDelete, hfind]⟩

/-- Witness for C7: video 4 exists in the fixture store but belongs to user
2; caller 1 gets the same NOT_FOUND and untouched store from both handlers,
exactly as for the nonexistent video id 99. -/
theorem videos_other_owner_hidden_witness :
    (videosGet videoStore 1 4 =
      (Except.error { code := TrpcCode.NOT_FOUND
                      message := "Video not found" }, videoStore) ∧
     videosDelete videoStore 1 4 =
      (Except.error { code := TrpcCode.NOT_FOUND
                      message := "Video not found" }, videoStore)) ∧
    (videosGet videoStore 1 99 =
      (Except.error { code := TrpcCode.NOT_FOUND
                      message := "Video not found" }, videoStore) ∧
     videosDelete videoStore 1 99 =
      (Except.error { code := TrpcCode.NOT_FOUND
                      message := "Video not found" }, videoStore)) :=
  ⟨videos_other_owner_hidden videoStore 1 4 (by decide),
   videos_other_owner_hidden videoStore 1 99 (by decide)⟩

/-- Claim C8: listPending returns exactly the download-queue entries whose
status is pending (a permutation of the pending filter of the table), ordered
by creation time ascending; every returned entry is pending and every pending
entry is returned, so entries in any other status never appear. -/
theorem getPendingDownloads_spec (s : Store) :
    (getPendingDownloads s).Perm (s.queue.filter (fun e =>
        e.status == DownloadStatus.pending)) ∧
    (getPendingDownloads s).Pairwise (fun a b => a.createdAt ≤ b.createdAt) ∧
    (∀ e ∈ getPendingDownloads s, e.status = DownloadStatus.pending) ∧
    (∀ e ∈ s.queue, e.status = DownloadStatus.pending →
      e ∈ getPendingDownloads s) := by
  refine ⟨List.mergeSort_perm _ _, ?_, ?_, ?_⟩
  · have h := @List.sorted_mergeSort DownloadQueueEntry
      (fun a b => decide (a.createdAt ≤ b.createdAt))
      (fun a b c hab hbc => by simp only [decide_eq_true_eq] at *; omega)
      (fun a b => by simp only [Bool.or_eq_true, decide_eq_true_eq]; omega)
      (s.queue.filter (fun e => e.status == DownloadStatus.pending))
    exact h.imp (fun hab => by simpa using hab)
  · intro e he
    have he2 : e ∈ s.queue.filter (fun e =>
        e.status == DownloadStatus.pending) := by
      simpa [getPendingDownloads] using he
    simp only [List.mem_filter, beq_iff_eq] at he2
    exact he2.2
  · intro e he h1
    simp only [getPendingDownloads, List.mem_mergeSort, List.mem_filter,
      beq_iff_eq]
    exact ⟨he, h1⟩

/-- Witness for C8: on the fixture store the pending list consists of exactly
the two pending entries (the processing one is excluded), and the early
pending entry is a member. -/
theorem getPendingDownloads_spec_witness :
    (getPendingDownloads queueStore).Perm [qePendingLate, qePendingEarly] ∧
    qePendingEarly ∈ getPendingDownloads queueStore :=
  ⟨(getPendingDownloads_spec queueStore).1,
   (getPendingDownloads_spec queueStore).2.2.2 qePendingEarly (by decide) rfl⟩

/-- In a schema-well-formed store every non-null session userId is the id of
some user row, hence positive; so the JS truthiness test on it is just the
null test. -/
theorem wf_session_userId_pos (s : Store) (hwf : StoreWF s = true)
    (t : TelegramSession) (ht : t ∈ s.sessions) (uid : Nat)
    (h : t.userId = some uid) : 1 ≤ uid := by
  simp only [StoreWF, Bool.and_eq_true, List.all_eq_true] at hwf
  obtain ⟨h1, h2⟩ := hwf
  have h3 := h2 t ht
  rw [h] at h3
  simp only [Option.all, List.any_eq_true, beq_iff_eq] at h3
  obtain ⟨u, hu, huid⟩ := h3
  have := h1 u hu
  simp only [decide_eq_true_eq] at this
  omega

/-- Claim C1: in a schema-well-formed store (positive user ids, session
foreign key into users), for every stored session and its auth token,
loginWithTelegram fails UNAUTHORIZED when the session is unverified, has no
linked user id, or its expiry has passed; fails NOT_FOUND when the user
record the login resolves (by the telegram openId of the session) is missing
from the user directory; and otherwise succeeds, sets a session credential
cookie for that user, and returns success together with the linked user id
of the session. -/
theorem loginWithTelegram_spec (s : Store) (now : Nat) (tok : String)
    (sess : TelegramSession) (hwf : StoreWF s = true)
    (hfind : getTelegramSessionByToken s tok = some sess) :
    ((sess.verified = false ∨ sess.userId = none ∨ sess.expiresAt < now) →
      errCode (loginWithTelegram s now tok).1 = some TrpcCode.UNAUTHORIZED) ∧
    (sess.verified = true → sess.userId ≠ none → ¬ sess.expiresAt < now →
      getUserByOpenId s ("telegram_" ++ numOrNullStr sess.telegramUserId) =
        none →
      errCode (loginWithTelegram s now tok).1 = some TrpcCode.NOT_FOUND) ∧
    (∀ uid user, sess.verified = true → sess.userId = some uid →
      ¬ sess.expiresAt < now →
      getUserByOpenId s ("telegram_" ++ numOrNullStr sess.telegramUserId) =
        some user →
      (loginWithTelegram s now tok).1 = Except.ok
        { success := true, userId := uid
          cookie := { openId := user.openId
                      name := jsOrStr user.name
                        (jsOrStr sess.telegramUsername "User") } }) := by
  have hmem : sess ∈ s.sessions := List.mem_of_find?_eq_some hfind
  have htruthy : sess.userId ≠ none → jsTruthyNat sess.userId = true := by
    intro hne
    cases hu : sess.userId with
    | none => exact absurd hu hne
    | some uid =>
      have := wf_session_userId_pos s hwf sess hmem uid hu
      simp only [jsTruthyNat, ne_eq, bne_iff_ne]
      omega
  refine ⟨?_, ?_, ?_⟩
  · intro h
    unfold loginWithTelegram
    rw [hfind]
    by_cases hc : (!sess.verified || !jsTruthyNat sess.userId) = true
    · simp [hc, errCode]
    · have hexp : sess.expiresAt < now := by
        rcases h with h | h | h
        · exact absurd (by simp [h]) hc
        · exact absurd (by simp [h, jsTruthyNat]) hc
        · exact h
      simp [hc, hexp, errCode]
  · intro hv hu hexp hlook
    unfold loginWithTelegram
    rw [hfind]
    simp [hv, htruthy hu, hexp, hlook, errCode]
  · intro uid user hv hu hexp hlook
    have ht := htruthy (by simp [hu])
    rw [hu] at ht
    unfold loginWithTelegram
    rw [hfind]
    simp [hv, hexp, hlook, hu, ht]

/-- Witness for C1: on the fixture store the verified, linked, unexpired
session logs in, the credential is minted for the telegram-keyed user record,
and the linked user id 3 is returned. -/
theorem loginWithTelegram_spec_witness :
    (loginWithTelegram demoStore 50 "tok").1 = Except.ok
      { success := true, userId := 3
        cookie := { openId := "telegram_555", name := "Ann" } } :=
  (loginWithTelegram_spec demoStore 50 "tok" verifiedSess (by decide)
      (by decide)).2.2 3 annUser rfl rfl (by decide) (by decide)

/-- Claim C10: on every successful loginWithTelegram the credential is minted
for the user whose external identity is the string telegram_ concatenated
with the telegram user id of the session — the linked userId column plays no
part in that lookup — while the response carries the linked userId of the
session; and since nothing relates the two, a concrete store exists on which
the call succeeds returning userId 7 while the credential was minted for the
user with id 3. -/
theorem loginWithTelegram_mint_mismatch :
    (∀ (s : Store) (now : Nat) (tok : String) (sess : TelegramSession)
        (res : LoginResult),
      getTelegramSessionByToken s tok = some sess →
      (loginWithTelegram s now tok).1 = Except.ok res →
      res.cookie.openId = "telegram_" ++ numOrNullStr sess.telegramUserId ∧
      res.userId = sess.userId.getD 0 ∧
      ∃ user, getUserByOpenId s
          ("telegram_" ++ numOrNullStr sess.telegramUserId) = some user ∧
        res.cookie.openId = user.openId) ∧
    ((loginWithTelegram mismatchStore 50 "tk").1 = Except.ok mismatchRes ∧
      mismatchRes.userId = 7 ∧
      getUserByOpenId mismatchStore mismatchRes.cookie.openId =
        some tinaUser ∧
      tinaUser.id = 3 ∧ mismatchRes.userId ≠ tinaUser.id) := by
  constructor
  · intro s now tok sess res hfind hok
    unfold loginWithTelegram at hok
    rw [hfind] at hok
    by_cases hc : (!sess.verified || !jsTruthyNat sess.userId) = true
    · simp [hc] at hok
    · by_cases hexp : sess.expiresAt < now
      · simp [hc, hexp] at hok
      · cases hl : getUserByOpenId s
            ("telegram_" ++ numOrNullStr sess.telegramUserId) with
        | none =>
          simp [hc, hexp, hl] at hok
        | some user =>
          simp [hc, hexp, hl] at hok
          have hl2 : s.users.find? (fun r => r.openId ==
              ("telegram_" ++ numOrNullStr sess.telegramUserId)) = some user :=
            hl
          have hpred := List.find?_some hl2
          have hopen : user.openId =
              "telegram_" ++ numOrNullStr sess.telegramUserId := by
            simpa using hpred
          rw [← hok]
          exact ⟨hopen, rfl, user, rfl, rfl⟩
  · exact ⟨by rfl, rfl, by rfl, rfl, by decide⟩

/-- Witness for C10: the general clause applied to the mismatch fixture shows
the cookie identity is the telegram-keyed string while the returned id is the
linked one. -/
theorem loginWithTelegram_mint_mismatch_witness :
    mismatchRes.cookie.openId =
      "telegram_" ++ numOrNullStr mismatchSess.telegramUserId ∧
    mismatchRes.userId = mismatchSess.userId.getD 0 :=
  ⟨(loginWithTelegram_mint_mismatch.1 mismatchStore 50 "tk" mismatchSess
      mismatchRes (by decide) (by rfl)).1,
   (loginWithTelegram_mint_mismatch.1 mismatchStore 50 "tk" mismatchSess
      mismatchRes (by decide) (by rfl)).2.1⟩

/-- Counterexample for C4: a store reachable by the operations the claim
names — one session created with verified=false, then the raw partial-update
primitive called with a patch setting only verified=true — contains a row
with verified=true whose telegram user id and linked user id are both null. -/
theorem session_link_invariant_counterexample :
    SessionReach c4Store ∧ c4Row ∈ c4Store.sessions ∧
    c4Row.verified = true ∧ c4Row.userId = none ∧
    c4Row.telegramUserId = none :=
  ⟨SessionReach.update _ _ _ (SessionReach.generate _ _ _ SessionReach.init),
   by decide, rfl, rfl, rfl⟩

/-- Claim C4 as amended: for every session row reachable by session creation
with verified=false and by updates of the exact shape the external verifier
performs (telegram user id, username, linked user id and verified=true set
together), verified=true implies both the telegram user id and the linked
user id are non-null; the unconstrained partial-update primitive itself does
not preserve the invariant. -/
theorem session_link_invariant_verifier (s : Store)
    (h : SessionReachVerifier s) : sessionLinkInvariant s := by
  induction h with
  | init =>
    intro r hr _
    simp [emptyStore] at hr
  | generate s now tok _ ih =>
    intro r hr hv
    simp only [generateAuthToken, createTelegramSession, List.mem_append,
      List.mem_singleton] at hr
    rcases hr with hr | hr
    · exact ih r hr hv
    · subst hr
      simp at hv
  | verify s tok tuid tuname uid _ ih =>
    intro r hr hv
    simp only [updateTelegramSession, List.mem_map] at hr
    obtain ⟨r0, hr0, hreq⟩ := hr
    by_cases hb : (r0.authToken == tok) = true
    · rw [if_pos hb] at hreq
      subst hreq
      simp [applySessionPatch, verifierPatch]
    · rw [if_neg hb] at hreq
      subst hreq
      exact ih r0 hr0 hv

/-- Witness for the amended C4: the invariant holds on the concrete store
reached by one creation and one verifier-shaped update. -/
theorem session_link_invariant_verifier_witness :
    sessionLinkInvariant c4GoodStore :=
  session_link_invariant_verifier c4GoodStore
    (SessionReachVerifier.verify _ _ _ _ _
      (SessionReachVerifier.generate _ _ _ SessionReachVerifier.init))

/-- Counterexample for C9: the update primitive does not fail on an unknown
token — on a store holding no session with token "missing" the call returns
normally and leaves the store byte-for-byte unchanged (the source throws only
on database unavailability, never on a zero-row update). -/
theorem updateTelegramSession_unknown_silent_counterexample :
    getTelegramSessionByToken demoStore "missing" = none ∧
    updateTelegramSession demoStore "missing" c9Patch = demoStore := by
  decide

/-- Mapping the conditional patch over rows none of which carries the token
changes nothing. -/
theorem map_sessionPatch_no_match (l : List TelegramSession) (tok : String)
    (p : TelegramSessionPatch) (h : ∀ r ∈ l, r.authToken ≠ tok) :
    l.map (fun r => if r.authToken == tok then applySessionPatch p r else r)
      = l := by
  induction l with
  | nil => rfl
  | cons a l ih =>
    simp only [List.map_cons]
    rw [if_neg (by simpa using h a (by simp)),
      ih (fun r hr => h r (by simp [hr]))]

/-- Claim C9 as amended: the update primitive applies the partial mutation to
every session carrying the given token and leaves every other session — and
every other table — untouched; on a token carried by no session it succeeds
silently as a no-op, returning the store unchanged, rather than failing. -/
theorem updateTelegramSession_spec (s : Store) (tok : String)
    (p : TelegramSessionPatch) :
    ((∀ r ∈ s.sessions, r.authToken ≠ tok) →
      updateTelegramSession s tok p = s) ∧
    (∀ r ∈ s.sessions, r.authToken = tok →
      applySessionPatch p r ∈ (updateTelegramSession s tok p).sessions) ∧
    (∀ r ∈ s.sessions, r.authToken ≠ tok →
      r ∈ (updateTelegramSession s tok p).sessions) ∧
    (updateTelegramSession s tok p).users = s.users ∧
    (updateTelegramSession s tok p).videos = s.videos ∧
    (updateTelegramSession s tok p).queue = s.queue := by
  refine ⟨?_, ?_, ?_, rfl, rfl, rfl⟩
  · intro h
    show { s with sessions := _ } = s
    rw [map_sessionPatch_no_match s.sessions tok p h]
  · intro r hr htok
    have hf : (fun x => if x.authToken == tok then applySessionPatch p x
        else x) r = applySessionPatch p r := by
      simp [htok]
    exact hf ▸ List.mem_map_of_mem _ hr
  · intro r hr htok
    have hf : (fun x => if x.authToken == tok then applySessionPatch p x
        else x) r = r := by
      simp [htok]
    exact hf ▸ List.mem_map_of_mem _ hr

/-- Witness for the amended C9: on the fixture store the patch lands on the
session with the matching token, and an update with an unmatched token
returns the store unchanged. -/
theorem updateTelegramSession_spec_witness :
    applySessionPatch c9Patch verifiedSess ∈
      (updateTelegramSession demoStore "tok" c9Patch).sessions ∧
    updateTelegramSession demoStore "zzz" c9Patch = demoStore :=
  ⟨(updateTelegramSession_spec demoStore "tok" c9Patch).2.1 verifiedSess
      (by decide) rfl,
   (updateTelegramSession_spec demoStore "zzz" c9Patch).1 (by decide)⟩

/-- Counterexample for C5: upserting the configured owner identity with no
field supplied mutates the omitted role field (user becomes admin) and does
not refresh lastSignedIn (the owner rule makes the update set non-empty), so
both the unchanged-omitted-fields clause and the refresh clause fail. -/
theorem upsertUser_owner_counterexample :
    noFieldSupplied c5Ins = true ∧
    upsertUser "owner" 100 c5Store c5Ins = Except.ok c5Store2 ∧
    getUserByOpenId c5Store "owner" = some c5Prior ∧
    getUserByOpenId c5Store2 "owner" = some c5After ∧
    c5Prior.role = Role.user ∧ c5After.role = Role.admin ∧
    c5Prior.lastSignedIn = 5 ∧ c5After.lastSignedIn = 5 :=
  ⟨by decide, rfl, by decide, by decide, rfl, rfl, rfl, rfl⟩

/-- find? for a key commutes with patching exactly the rows carrying that
key, when the patch preserves the key. -/
theorem find?_userPatch_map (l : List User) (k : String) (g : User → User)
    (hg : ∀ x, (g x).openId = x.openId) :
    (l.map (fun x => if x.openId == k then g x else x)).find?
        (fun x => x.openId == k) =
      (l.find? (fun x => x.openId == k)).map g := by
  induction l with
  | nil => rfl
  | cons a l ih =>
    simp only [List.map_cons]
    by_cases hb : (a.openId == k) = true
    · rw [if_pos hb]
      rw [@List.find?_cons_of_pos User (fun x => x.openId == k) (g a) _
          (by simpa [hg] using hb),
        @List.find?_cons_of_pos User (fun x => x.openId == k) a l hb]
      rfl
    · rw [if_neg hb]
      rw [@List.find?_cons_of_neg User (fun x => x.openId == k) a _ hb,
        @List.find?_cons_of_neg User (fun x => x.openId == k) a l hb]
      exact ih

/-- Claim C5 as amended: for every non-empty identity and prior store state,
upsert followed by get returns a record in which every explicitly-supplied
field equals the supplied value (an explicit null clears the field) and, when
a prior record exists, every omitted field among name, email, loginMethod and
lastSignedIn is unchanged — except that when the identity equals the
configured owner identity an omitted role is forced to admin, and the
lastSignedIn refresh happens exactly when no field was supplied AND the
identity is not the owner identity (for the owner the forced role entry makes
the update set non-empty and lastSignedIn stays); on a fresh identity omitted
fields take the column defaults (null, role user or owner-admin, lastSignedIn
now). -/
theorem upsertUser_roundtrip (ownerOpenId : String) (now : Nat) (s : Store)
    (u : InsertUser) (hne : u.openId ≠ "") :
    ∃ s2 r2, upsertUser ownerOpenId now s u = Except.ok s2 ∧
      getUserByOpenId s2 u.openId = some r2 ∧
      r2.openId = u.openId ∧
      (∀ v, u.name = some v → r2.name = v) ∧
      (∀ v, u.email = some v → r2.email = v) ∧
      (∀ v, u.loginMethod = some v → r2.loginMethod = v) ∧
      (∀ v, u.role = some v → r2.role = v) ∧
      (∀ v, u.lastSignedIn = some v → r2.lastSignedIn = v) ∧
      (∀ r, getUserByOpenId s u.openId = some r →
        (u.name = none → r2.name = r.name) ∧
        (u.email = none → r2.email = r.email) ∧
        (u.loginMethod = none → r2.loginMethod = r.loginMethod) ∧
        (u.role = none → u.openId ≠ ownerOpenId → r2.role = r.role) ∧
        (u.role = none → u.openId = ownerOpenId → r2.role = Role.admin) ∧
        (u.lastSignedIn = none → noFieldSupplied u = false →
          r2.lastSignedIn = r.lastSignedIn) ∧
        (u.lastSignedIn = none → u.openId = ownerOpenId →
          r2.lastSignedIn = r.lastSignedIn) ∧
        (noFieldSupplied u = true → u.openId ≠ ownerOpenId →
          r2.lastSignedIn = now)) ∧
      (getUserByOpenId s u.openId = none →
        (u.name = none → r2.name = none) ∧
        (u.email = none → r2.email = none) ∧
        (u.loginMethod = none → r2.loginMethod = none) ∧
        (u.role = none → u.openId ≠ ownerOpenId → r2.role = Role.user) ∧
        (u.role = none → u.openId = ownerOpenId → r2.role = Role.admin) ∧
        (u.lastSignedIn = none → r2.lastSignedIn = now)) := by
  cases hfound : getUserByOpenId s u.openId with
  | some r =>
    have hfound2 : s.users.find? (fun x => x.openId == u.openId) = some r :=
      hfound
    have hpred := List.find?_some hfound2
    have hany : s.users.any (fun x => x.openId == u.openId) = true :=
      List.any_eq_true.mpr ⟨r, List.mem_of_find?_eq_some hfound2, hpred⟩
    refine ⟨{ s with users := s.users.map (fun x =>
        if x.openId == u.openId then applyUserUpdateSet ownerOpenId now u x
        else x) }, applyUserUpdateSet ownerOpenId now u r,
      ?_, ?_, ?_, ?_, ?_, ?_, ?_, ?_, ?_, ?_⟩
    · simp [upsertUser, hne, hany]
    · show (s.users.map (fun x =>
          if x.openId == u.openId then applyUserUpdateSet ownerOpenId now u x
          else x)).find? (fun x => x.openId == u.openId) = _
      rw [find?_userPatch_map s.users u.openId (applyUserUpdateSet ownerOpenId now u) (fun x => rfl), hfound2]
      rfl
    · simpa [applyUserUpdateSet] using hpred
    · intro v hv
      simp [applyUserUpdateSet, hv]
    · intro v hv
      simp [applyUserUpdateSet, hv]
    · intro v hv
      simp [applyUserUpdateSet, hv]
    · intro v hv
      simp [applyUserUpdateSet, userRoleToSet, hv]
    · intro v hv
      simp [applyUserUpdateSet, userUpdateSetEmpty, noFieldSupplied, hv]
    · intro r2 hr2
      injection hr2 with hr2
      subst hr2
      refine ⟨?_, ?_, ?_, ?_, ?_, ?_, ?_, ?_⟩
      · intro h
        simp [applyUserUpdateSet, h]
      · intro h
        simp [applyUserUpdateSet, h]
      · intro h
        simp [applyUserUpdateSet, h]
      · intro h1 h2
        have hb : (u.openId == ownerOpenId) = false := by simpa using h2
        simp [applyUserUpdateSet, userRoleToSet, h1, hb]
      · intro h1 h2
        simp [applyUserUpdateSet, userRoleToSet, h1, h2]
      · intro h1 h2
        simp [applyUserUpdateSet, userUpdateSetEmpty, h1, h2]
      · intro h1 h2
        simp [applyUserUpdateSet, userUpdateSetEmpty, h1, h2]
      · intro h1 h2
        have hb : (u.openId == ownerOpenId) = false := by simpa using h2
        simp [applyUserUpdateSet, userUpdateSetEmpty, h1, hb]
    · intro hnone
      simp at hnone
  | none =>
    have hfound2 : s.users.find? (fun x => x.openId == u.openId) = none :=
      hfound
    have hany : s.users.any (fun x => x.openId == u.openId) = false := by
      cases hA : s.users.any (fun x => x.openId == u.openId)
      · rfl
      · obtain ⟨x, hx, hpx⟩ := List.any_eq_true.mp hA
        have hs : (s.users.find? (fun x => x.openId == u.openId)).isSome :=
          List.find?_isSome.mpr ⟨x, hx, hpx⟩
        rw [hfound2] at hs
        simp at hs
    refine ⟨{ s with
        users := s.users ++ [insertUserRow ownerOpenId now s u],
        nextUserId := s.nextUserId + 1 }, insertUserRow ownerOpenId now s u,
      ?_, ?_, rfl, ?_, ?_, ?_, ?_, ?_, ?_, ?_⟩
    · simp [upsertUser, hne, hany]
    · show (s.users ++ [insertUserRow ownerOpenId now s u]).find?
          (fun x => x.openId == u.openId) = _
      rw [List.find?_append, hfound2]
      simp [List.find?, insertUserRow]
    · intro v hv
      simp [insertUserRow, hv, Option.join]
    · intro v hv
      simp [insertUserRow, hv, Option.join]
    · intro v hv
      simp [insertUserRow, hv, Option.join]
    · intro v hv
      simp [insertUserRow, userRoleToSet, hv]
    · intro v hv
      simp [insertUserRow, hv]
    · intro r hr
      simp at hr
    · intro _
      refine ⟨?_, ?_, ?_, ?_, ?_, ?_⟩
      · intro h
        simp [insertUserRow, h, Option.join]
      · intro h
        simp [insertUserRow, h, Option.join]
      · intro h
        simp [insertUserRow, h, Option.join]
      · intro h1 h2
        have hb : (u.openId == ownerOpenId) = false := by simpa using h2
        simp [insertUserRow, userRoleToSet, h1, hb]
      · intro h1 h2
        simp [insertUserRow, userRoleToSet, h1, h2]
      · intro h
        simp [insertUserRow, h]

/-- Witness for the amended C5: upserting alice with an explicit-null name
and a new email clears name, overwrites email, and leaves loginMethod, role
and lastSignedIn untouched. -/
theorem upsertUser_roundtrip_witness :
    ∃ s2 r2, upsertUser "owner" 100 w5Store w5Ins = Except.ok s2 ∧
      getUserByOpenId s2 "alice" = some r2 ∧
      r2.name = none ∧ r2.email = some "b@y" ∧
      r2.loginMethod = some "telegram" ∧ r2.role = Role.user ∧
      r2.lastSignedIn = 5 := by
  obtain ⟨s2, r2, hA, hB, _, hD, hE, hF, hG, hH, hI, _⟩ :=
    upsertUser_roundtrip "owner" 100 w5Store w5Ins (by decide)
  obtain ⟨_, _, hlm, hrole, _, hls, _, _⟩ := hI w5Prior (by decide)
  exact ⟨s2, r2, hA, hB, hD none rfl, hE (some "b@y") rfl, hlm rfl,
    hrole rfl (by decide), hls rfl rfl⟩

end TeslaVideo
